import Mathlib

/-!
Shallow embedding of `src/chestnut_bun_problem.py`, the chestnut-bun
(dorayaki) exponential-growth calculator.

The core routine `calcular_tiempo_para_volumen` takes a target volume, an
initial volume and a doubling period (seconds) and returns the triple
`(tiempo_total_minutos, duplicaciones_necesarias, datos_evolucion)`.
Volumes and times are modelled as exact rationals; the source's
`math.ceil(math.log2(x))` is modelled in exact arithmetic as `Int.clog 2 x`,
the ceiling of the base-2 logarithm on `ℚ`.
-/

/-- Constant `TIEMPO_DUPLICACION` from the source: the Baibain's doubling
period, 5 minutes expressed in seconds. -/
def TIEMPO_DUPLICACION : ℚ := 5 * 60

/-- Embedding of `calcular_tiempo_para_volumen(volumen_objetivo,
volumen_inicial, tiempo_duplicacion)`.

Source logic:
* if `volumen_inicial <= 0 or volumen_objetivo <= volumen_inicial`,
  return `0, 0, []`;
* else `duplicaciones_necesarias = math.ceil(math.log2(volumen_objetivo /
  volumen_inicial))`, `tiempo_total_segundos = duplicaciones_necesarias *
  tiempo_duplicacion`, `tiempo_total_minutos = tiempo_total_segundos / 60`,
  and `datos_evolucion` collects, for `n in range(duplicaciones_necesarias
  + 1)`, the triple `(n * tiempo_duplicacion / 60, volumen_inicial * 2 ** n,
  n)`. -/
def calcular_tiempo_para_volumen (volumen_objetivo volumen_inicial
    tiempo_duplicacion : ℚ) : ℚ × ℤ × List (ℚ × ℚ × ℤ) :=
  if volumen_inicial ≤ 0 ∨ volumen_objetivo ≤ volumen_inicial then
    (0, 0, [])
  else
    let duplicaciones_necesarias : ℤ :=
      Int.clog 2 (volumen_objetivo / volumen_inicial)
    let tiempo_total_segundos : ℚ :=
      (duplicaciones_necesarias : ℚ) * tiempo_duplicacion
    let tiempo_total_minutos : ℚ := tiempo_total_segundos / 60
    let datos_evolucion : List (ℚ × ℚ × ℤ) :=
      (List.range (duplicaciones_necesarias.toNat + 1)).map fun n : ℕ =>
        ((n : ℚ) * tiempo_duplicacion / 60,
          volumen_inicial * 2 ^ n, (n : ℤ))
    (tiempo_total_minutos, duplicaciones_necesarias, datos_evolucion)

/-- On non-degenerate inputs the branch guard is false and the function
returns the computed triple. -/
theorem calcular_eq_of_nondeg (vo vi td : ℚ) (hvi : 0 < vi) (hlt : vi < vo) :
    calcular_tiempo_para_volumen vo vi td =
      (((Int.clog 2 (vo / vi) : ℚ) * td) / 60,
        Int.clog 2 (vo / vi),
        (List.range ((Int.clog 2 (vo / vi)).toNat + 1)).map fun n : ℕ =>
          ((n : ℚ) * td / 60, vi * 2 ^ n, (n : ℤ))) := by
  unfold calcular_tiempo_para_volumen
  rw [if_neg]
  push_neg
  exact ⟨hvi, hlt⟩

/-- On non-degenerate inputs the duplication count is positive. -/
theorem clog_pos_of_nondeg (vo vi : ℚ) (hvi : 0 < vi) (hlt : vi < vo) :
    0 < Int.clog 2 (vo / vi) := by
  have hr : 0 < vo / vi := div_pos (lt_trans hvi hlt) hvi
  have hr1 : 1 < vo / vi := (one_lt_div hvi).mpr hlt
  have h2 : (1 : ℕ) < 2 := by norm_num
  exact (Int.zpow_lt_iff_lt_clog h2 hr).mp (by simpa using hr1)

/-- Rewriting the integer power of 2 at a nonnegative exponent as a natural
power. -/
theorem zpow_toNat_of_nonneg {c : ℤ} (hc : 0 ≤ c) :
    (2 : ℚ) ^ c = 2 ^ c.toNat := by
  rw [← zpow_natCast (2 : ℚ) c.toNat, Int.toNat_of_nonneg hc]

/-- Claim C1: for `initialVolume > 0` and `targetVolume > initialVolume`,
the returned `duplicaciones_necesarias` is the minimum non-negative integer
`n` with `initialVolume * 2 ^ n >= targetVolume`; in particular
`initialVolume * 2 ^ (n - 1) < targetVolume` when `n > 0`. -/
theorem C1_duplicaciones_minimal (vo vi td : ℚ) (hvi : 0 < vi)
    (hlt : vi < vo) :
    0 ≤ (calcular_tiempo_para_volumen vo vi td).2.1 ∧
    vo ≤ vi * 2 ^ (calcular_tiempo_para_volumen vo vi td).2.1.toNat ∧
    (0 < (calcular_tiempo_para_volumen vo vi td).2.1 →
      vi * 2 ^ ((calcular_tiempo_para_volumen vo vi td).2.1.toNat - 1) < vo) ∧
    ∀ m : ℕ, vo ≤ vi * 2 ^ m →
      (calcular_tiempo_para_volumen vo vi td).2.1 ≤ (m : ℤ) := by
  rw [calcular_eq_of_nondeg vo vi td hvi hlt]
  dsimp only
  have h2 : (1 : ℕ) < 2 := by norm_num
  have hr : 0 < vo / vi := div_pos (lt_trans hvi hlt) hvi
  have hcpos : 0 < Int.clog 2 (vo / vi) := clog_pos_of_nondeg vo vi hvi hlt
  refine ⟨hcpos.le, ?_, ?_, ?_⟩
  · have h1 : vo / vi ≤ (2 : ℚ) ^ Int.clog 2 (vo / vi) :=
      Int.self_le_zpow_clog h2 (vo / vi)
    rw [zpow_toNat_of_nonneg hcpos.le] at h1
    have := (div_le_iff₀ hvi).mp h1
    linarith [this, mul_comm ((2 : ℚ) ^ (Int.clog 2 (vo / vi)).toNat) vi]
  · intro _
    have h1 : (2 : ℚ) ^ (Int.clog 2 (vo / vi) - 1) < vo / vi :=
      Int.zpow_pred_clog_lt_self h2 hr
    have he : Int.clog 2 (vo / vi) - 1 =
        (((Int.clog 2 (vo / vi)).toNat - 1 : ℕ) : ℤ) := by omega
    rw [he, zpow_natCast] at h1
    have := (lt_div_iff₀ hvi).mp h1
    linarith [this,
      mul_comm ((2 : ℚ) ^ ((Int.clog 2 (vo / vi)).toNat - 1)) vi]
  · intro m hm
    have h1 : vo / vi ≤ (2 : ℚ) ^ (m : ℤ) := by
      rw [zpow_natCast]
      rw [div_le_iff₀ hvi]
      linarith [hm, mul_comm vi ((2 : ℚ) ^ m)]
    exact (Int.le_zpow_iff_clog_le h2 hr).mp h1

/-- Witness for C1 at `volumen_objetivo = 10`, `volumen_inicial = 1`,
`tiempo_duplicacion = 300`. -/
theorem C1_witness :
    (0 : ℚ) < 1 ∧ (1 : ℚ) < 10 ∧
    (0 ≤ (calcular_tiempo_para_volumen 10 1 300).2.1 ∧
      (10 : ℚ) ≤ 1 * 2 ^ (calcular_tiempo_para_volumen 10 1 300).2.1.toNat ∧
      (0 < (calcular_tiempo_para_volumen 10 1 300).2.1 →
        (1 : ℚ) * 2 ^ ((calcular_tiempo_para_volumen 10 1 300).2.1.toNat - 1)
          < 10) ∧
      ∀ m : ℕ, (10 : ℚ) ≤ 1 * 2 ^ m →
        (calcular_tiempo_para_volumen 10 1 300).2.1 ≤ (m : ℤ)) :=
  ⟨by norm_num, by norm_num,
    C1_duplicaciones_minimal 10 1 300 (by norm_num) (by norm_num)⟩

/-- Claim C2: degenerate inputs (`volumen_inicial <= 0` or
`volumen_objetivo <= volumen_inicial`) yield exactly `(0, 0, [])` for any
doubling period. -/
theorem C2_degenerate (vo vi td : ℚ) (h : vi ≤ 0 ∨ vo ≤ vi) :
    calcular_tiempo_para_volumen vo vi td = (0, 0, []) := by
  unfold calcular_tiempo_para_volumen
  rw [if_pos h]

/-- Witness for C2 at `volumen_objetivo = 5`, `volumen_inicial = 10`,
`tiempo_duplicacion = 300`. -/
theorem C2_witness :
    ((10 : ℚ) ≤ 0 ∨ (5 : ℚ) ≤ 10) ∧
    calcular_tiempo_para_volumen 5 10 300 = (0, 0, []) :=
  ⟨Or.inr (by norm_num),
    C2_degenerate 5 10 300 (Or.inr (by norm_num))⟩

/-- Claim C3: on non-degenerate inputs the series has exactly
`duplicaciones_necesarias + 1` points, and the `k`-th point is
`(k * tiempo_duplicacion / 60, volumen_inicial * 2 ^ k, k)`. -/
theorem C3_series_points (vo vi td : ℚ) (hvi : 0 < vi) (hlt : vi < vo) :
    (calcular_tiempo_para_volumen vo vi td).2.2.length =
      (calcular_tiempo_para_volumen vo vi td).2.1.toNat + 1 ∧
    ∀ k : ℕ, k ≤ (calcular_tiempo_para_volumen vo vi td).2.1.toNat →
      (calcular_tiempo_para_volumen vo vi td).2.2[k]? =
        some ((k : ℚ) * td / 60, vi * 2 ^ k, (k : ℤ)) := by
  rw [calcular_eq_of_nondeg vo vi td hvi hlt]
  dsimp only
  constructor
  · rw [List.length_map, List.length_range]
  · intro k hk
    rw [List.getElem?_map, List.getElem?_range (by omega)]
    rfl

/-- Witness for C3 at `volumen_objetivo = 10`, `volumen_inicial = 1`,
`tiempo_duplicacion = 300`. -/
theorem C3_witness :
    (0 : ℚ) < 1 ∧ (1 : ℚ) < 10 ∧
    ((calcular_tiempo_para_volumen 10 1 300).2.2.length =
      (calcular_tiempo_para_volumen 10 1 300).2.1.toNat + 1 ∧
    ∀ k : ℕ, k ≤ (calcular_tiempo_para_volumen 10 1 300).2.1.toNat →
      (calcular_tiempo_para_volumen 10 1 300).2.2[k]? =
        some ((k : ℚ) * 300 / 60, 1 * 2 ^ k, (k : ℤ))) :=
  ⟨by norm_num, by norm_num,
    C3_series_points 10 1 300 (by norm_num) (by norm_num)⟩

/-- Claim C4: on non-degenerate inputs the returned total minutes equal
`duplicaciones_necesarias * tiempo_duplicacion / 60`. -/
theorem C4_total_minutos (vo vi td : ℚ) (hvi : 0 < vi) (hlt : vi < vo) :
    (calcular_tiempo_para_volumen vo vi td).1 =
      ((calcular_tiempo_para_volumen vo vi td).2.1 : ℚ) * td / 60 := by
  rw [calcular_eq_of_nondeg vo vi td hvi hlt]

/-- Witness for C4 at `volumen_objetivo = 10`, `volumen_inicial = 1`,
`tiempo_duplicacion = 300`. -/
theorem C4_witness :
    (0 : ℚ) < 1 ∧ (1 : ℚ) < 10 ∧
    (calcular_tiempo_para_volumen 10 1 300).1 =
      ((calcular_tiempo_para_volumen 10 1 300).2.1 : ℚ) * 300 / 60 :=
  ⟨by norm_num, by norm_num,
    C4_total_minutos 10 1 300 (by norm_num) (by norm_num)⟩

/-- Claim C5: on non-degenerate inputs with a positive doubling period the
series is strictly increasing in elapsed minutes (first component) and in
the duplication index (third component). -/
theorem C5_series_strict_mono (vo vi td : ℚ) (hvi : 0 < vi) (hlt : vi < vo)
    (htd : 0 < td) :
    (calcular_tiempo_para_volumen vo vi td).2.2.Pairwise
      (fun p q => p.1 < q.1 ∧ p.2.2 < q.2.2) := by
  rw [calcular_eq_of_nondeg vo vi td hvi hlt]
  dsimp only
  rw [List.pairwise_map]
  refine (List.pairwise_lt_range _).imp ?_
  intro a b hab
  constructor
  · have hq : (a : ℚ) < b := by exact_mod_cast hab
    have h60 : (0 : ℚ) < 60 := by norm_num
    exact div_lt_div_of_pos_right (mul_lt_mul_of_pos_right hq htd) h60
  · exact Int.ofNat_lt.mpr hab

/-- Witness for C5 at `volumen_objetivo = 10`, `volumen_inicial = 1`,
`tiempo_duplicacion = 300`. -/
theorem C5_witness :
    (0 : ℚ) < 1 ∧ (1 : ℚ) < 10 ∧ (0 : ℚ) < 300 ∧
    (calcular_tiempo_para_volumen 10 1 300).2.2.Pairwise
      (fun p q => p.1 < q.1 ∧ p.2.2 < q.2.2) :=
  ⟨by norm_num, by norm_num, by norm_num,
    C5_series_strict_mono 10 1 300 (by norm_num) (by norm_num) (by norm_num)⟩

/-- Claim C7: the computation is deterministic — two calls with equal
inputs return equal results (the embedding is a pure function of its three
arguments). -/
theorem C7_deterministic (vo vi td vo2 vi2 td2 : ℚ) (h1 : vo = vo2)
    (h2 : vi = vi2) (h3 : td = td2) :
    calcular_tiempo_para_volumen vo vi td =
      calcular_tiempo_para_volumen vo2 vi2 td2 := by
  rw [h1, h2, h3]

/-- Witness for C7 at `volumen_objetivo = 10`, `volumen_inicial = 1`,
`tiempo_duplicacion = 300` twice. -/
theorem C7_witness :
    (10 : ℚ) = 10 ∧ (1 : ℚ) = 1 ∧ (300 : ℚ) = 300 ∧
    calcular_tiempo_para_volumen 10 1 300 =
      calcular_tiempo_para_volumen 10 1 300 :=
  ⟨rfl, rfl, rfl, C7_deterministic 10 1 300 10 1 300 rfl rfl rfl⟩

/-- Ceiling base-2 logarithm of 1024 over the rationals. -/
theorem clog_two_1024 : Int.clog 2 (1024 : ℚ) = 10 := by
  rw [Int.clog_ofNat]
  have h : (1024 : ℕ) = 2 ^ 10 := by norm_num
  rw [h, Nat.clog_pow 2 10 (by norm_num)]
  norm_num

/-- Ceiling base-2 logarithm of 10^9 over the rationals. -/
theorem clog_two_1e9 : Int.clog 2 (1000000000 : ℚ) = 30 := by
  rw [Int.clog_ofNat]
  have hle : Nat.clog 2 1000000000 ≤ 30 :=
    (Nat.le_pow_iff_clog_le (by norm_num)).mp (by norm_num)
  have hlt : 29 < Nat.clog 2 1000000000 :=
    (Nat.pow_lt_iff_lt_clog (by norm_num)).mp (by norm_num)
  omega

/-- Claim C8: the dorayaki scenario `volumen_objetivo = 0.00015 * 1024`,
`volumen_inicial = 0.00015`, `tiempo_duplicacion = 300` yields 10
duplications, 50 total minutes, an 11-point series whose last point has
elapsed minutes 50 and volume `0.1536`. -/
theorem C8_dorayaki_scenario :
    (calcular_tiempo_para_volumen (0.00015 * 1024) 0.00015 300).2.1 = 10 ∧
    (calcular_tiempo_para_volumen (0.00015 * 1024) 0.00015 300).1 = 50 ∧
    (calcular_tiempo_para_volumen (0.00015 * 1024) 0.00015 300).2.2.length
      = 11 ∧
    (calcular_tiempo_para_volumen (0.00015 * 1024) 0.00015 300).2.2[10]? =
      some ((50 : ℚ), (0.1536 : ℚ), (10 : ℤ)) := by
  have hvi : (0 : ℚ) < 0.00015 := by norm_num
  have hlt : (0.00015 : ℚ) < 0.00015 * 1024 := by norm_num
  have hr : (0.00015 * 1024 : ℚ) / 0.00015 = 1024 := by norm_num
  rw [calcular_eq_of_nondeg (0.00015 * 1024) 0.00015 300 hvi hlt, hr,
    clog_two_1024]
  dsimp only
  refine ⟨rfl, by norm_num, ?_, ?_⟩
  · rw [List.length_map, List.length_range]
    decide
  · rw [List.getElem?_map, List.getElem?_range (by decide)]
    norm_num

/-- Claim C9: the marble-to-pool scenario `volumen_objetivo = 100`,
`volumen_inicial = 0.0000001`, `tiempo_duplicacion = 300` yields 30
duplications and 150 total minutes. -/
theorem C9_canica_scenario :
    (calcular_tiempo_para_volumen 100 0.0000001 300).2.1 = 30 ∧
    (calcular_tiempo_para_volumen 100 0.0000001 300).1 = 150 := by
  have hvi : (0 : ℚ) < 0.0000001 := by norm_num
  have hlt : (0.0000001 : ℚ) < 100 := by norm_num
  have hr : (100 : ℚ) / 0.0000001 = 1000000000 := by norm_num
  rw [calcular_eq_of_nondeg 100 0.0000001 300 hvi hlt, hr, clog_two_1e9]
  exact ⟨rfl, by norm_num⟩

/-- Claim C10: on non-degenerate inputs the series is non-empty and its
last point agrees with the scalar results: elapsed minutes equal the total
minutes and the duplication index equals `duplicaciones_necesarias`. -/
theorem C10_last_point_consistent (vo vi td : ℚ) (hvi : 0 < vi)
    (hlt : vi < vo) :
    (calcular_tiempo_para_volumen vo vi td).2.2 ≠ [] ∧
    (calcular_tiempo_para_volumen vo vi td).2.2.getLast? =
      some ((calcular_tiempo_para_volumen vo vi td).1,
        vi * 2 ^ (calcular_tiempo_para_volumen vo vi td).2.1.toNat,
        (calcular_tiempo_para_volumen vo vi td).2.1) := by
  have hcpos : 0 < Int.clog 2 (vo / vi) := clog_pos_of_nondeg vo vi hvi hlt
  rw [calcular_eq_of_nondeg vo vi td hvi hlt]
  dsimp only
  have hlen : ((List.range ((Int.clog 2 (vo / vi)).toNat + 1)).map
      fun n : ℕ => ((n : ℚ) * td / 60, vi * 2 ^ n, (n : ℤ))).length =
      (Int.clog 2 (vo / vi)).toNat + 1 := by
    rw [List.length_map, List.length_range]
  constructor
  · exact List.ne_nil_of_length_pos (by omega)
  · rw [List.getLast?_eq_getElem?, hlen, Nat.add_sub_cancel,
      List.getElem?_map, List.getElem?_range (by omega)]
    have hq : ((Int.clog 2 (vo / vi)).toNat : ℚ) = (Int.clog 2 (vo / vi) : ℚ) :=
      by exact_mod_cast Int.toNat_of_nonneg hcpos.le
    rw [Option.map_some', Option.some.injEq, Prod.mk.injEq, Prod.mk.injEq]
    exact ⟨by rw [hq], rfl, Int.toNat_of_nonneg hcpos.le⟩

/-- Witness for C10 at `volumen_objetivo = 10`, `volumen_inicial = 1`,
`tiempo_duplicacion = 300`. -/
theorem C10_witness :
    (0 : ℚ) < 1 ∧ (1 : ℚ) < 10 ∧
    ((calcular_tiempo_para_volumen 10 1 300).2.2 ≠ [] ∧
    (calcular_tiempo_para_volumen 10 1 300).2.2.getLast? =
      some ((calcular_tiempo_para_volumen 10 1 300).1,
        1 * 2 ^ (calcular_tiempo_para_volumen 10 1 300).2.1.toNat,
        (calcular_tiempo_para_volumen 10 1 300).2.1)) :=
  ⟨by norm_num, by norm_num,
    C10_last_point_consistent 10 1 300 (by norm_num) (by norm_num)⟩
